import Mathlib

set_option linter.unusedVariables false
set_option linter.unnecessarySeqFocus false

/-!
Shallow embedding of the `gitui` GitHub-to-Azure-DevOps migration tool.

The repository consists of two Go files, each a Fyne desktop form around the
same migration idea:

* `main.go` — a handler that splits a comma-separated repository list, spawns
  one goroutine per entry (`migrateRepo`), each doing
  `git clone --mirror`, `git remote add azure-devops`, `git push --mirror`,
  and optionally `os.RemoveAll` of the local clone.
* `new.go` — a single background goroutine that fetches the repository list
  from the GitHub API (`getGitHubRepos`), then sequentially, per repository:
  creates the Azure repository over REST (`createAzureRepo`), makes a
  temporary directory, `git clone --bare`, `git remote add azure`,
  `git push azure --all`, `git push azure --tags`, then removes or relocates
  the clone.

External effects (HTTP responses, the git subprocess, the filesystem) are
modelled as explicit oracle inputs; the GUI widgets only carry the strings
that the handlers read from them, so the handlers are modelled as functions
of those strings.  Log output is modelled as a list of structured messages
together with a `render` function reproducing the exact `fmt.Sprintf`
formats of the source (the `[hh:mm:ss]` timestamp prepended by `new.go`'s
`appendLog` comes from the wall clock and is omitted).
-/

namespace Gitui

/-- Go `strings.TrimSpace` removes leading and trailing whitespace.
(Go's `unicode.IsSpace` also covers a few rare code points such as U+0085
that `Char.isWhitespace` does not; no claim depends on those.) -/
def isSpace (c : Char) : Bool := c.isWhitespace

/-- Character-list core of `strings.TrimSpace`. -/
def trimChars (cs : List Char) : List Char :=
  ((cs.dropWhile isSpace).reverse.dropWhile isSpace).reverse

/-- Embedding of Go `strings.TrimSpace`. -/
def trimSpace (s : String) : String := ⟨trimChars s.data⟩

/-- Character-list core of Go `strings.Split(s, ",")`: splits at every comma,
keeping empty fields, always returning at least one field. -/
def splitCommaAux : List Char → List Char → List (List Char)
  | [], acc => [acc.reverse]
  | c :: rest, acc =>
    if c = ',' then acc.reverse :: splitCommaAux rest []
    else splitCommaAux rest (c :: acc)

/-- Embedding of Go `strings.Split(s, ",")`. -/
def splitComma (s : String) : List String :=
  (splitCommaAux s.data []).map (fun cs => ⟨cs⟩)

/-- Character-list core of Go `strings.Replace(s, old, new, 1)`: replaces the
first occurrence of `old` (none found leaves the list unchanged; an empty
`old` inserts at the front, as in Go). -/
def replaceFirstChars (old repl : List Char) : List Char → List Char
  | [] => if old.isEmpty then repl else []
  | c :: rest =>
    if old.isPrefixOf (c :: rest) then repl ++ (c :: rest).drop old.length
    else c :: replaceFirstChars old repl rest

/-- Embedding of Go `strings.Replace(s, old, new, 1)`. -/
def replaceFirst (s old repl : String) : String :=
  ⟨replaceFirstChars old.data repl.data s.data⟩

/-- Embedding of Go `strings.ReplaceAll(s, "/", "_")` (single-character
pattern, so a plain character map). -/
def slashToUnderscore (s : String) : String :=
  ⟨s.data.map (fun c => if c = '/' then '_' else c)⟩

/-- `containsChars sub s`: the character list `sub` occurs contiguously in
`s` (the empty list occurs everywhere). -/
def containsChars (sub : List Char) : List Char → Bool
  | [] => sub.isEmpty
  | c :: rest => sub.isPrefixOf (c :: rest) || containsChars sub rest

/-- `sub` occurs as a substring of `s`. -/
def containsStr (s sub : String) : Bool := containsChars sub.data s.data

/-! ## `new.go`: `createAzureRepo` (destination provisioning) -/

/-- The observable part of the Azure DevOps HTTP response used by
`createAzureRepo`: the numeric status code, its textual form (`resp.Status`,
e.g. `"409 Conflict"`), and the `remoteUrl` field parsed from the JSON body
(empty when absent or unparsable, matching the ignored `json.Unmarshal`
error). -/
structure AzureResponse where
  status : Nat
  statusText : String
  remoteUrl : String
deriving DecidableEq

/-- The request URL `createAzureRepo` builds
(`fmt.Sprintf("%s/%s/_apis/git/repositories?api-version=7.0", org, project)`). -/
def azureCreateUrl (org project : String) : String :=
  org ++ "/" ++ project ++ "/_apis/git/repositories?api-version=7.0"

/-- Embedding of `new.go`'s `createAzureRepo`.  `net` is the network oracle:
`.error e` models `client.Do` failing with error text `e`; `.ok resp` models
a completed POST to `azureCreateUrl org project`.  The source accepts only
`http.StatusCreated` (201); every other status yields
`fmt.Errorf("Azure API error: %s", resp.Status)`.  On success the Azure PAT
is spliced into the returned push URL by replacing the first
`"dev.azure.com"` with `token ++ "@dev.azure.com"`. -/
def createAzureRepo (repoName org project token : String)
    (net : Except String AzureResponse) : Except String String :=
  match net with
  | .error e => .error e
  | .ok resp =>
    if resp.status = 201 then
      .ok (replaceFirst resp.remoteUrl "dev.azure.com" (token ++ "@dev.azure.com"))
    else
      .error ("Azure API error: " ++ resp.statusText)

/-- A provisioning call succeeded (returned a push URL rather than an error). -/
def provisionOk (r : Except String String) : Bool :=
  match r with
  | .ok _ => true
  | .error _ => false

/-! ## `new.go`: the per-repository migration loop body (lines 171–249) -/

deriving instance DecidableEq for Except

/-- The log messages `new.go` appends, one constructor per `appendLog` call
site, carrying exactly the data interpolated by the corresponding
`fmt.Sprintf`; `render` below reproduces the format strings. -/
inductive LogMsg where
  | migrating (repo : String)
  | createErr (repo err : String)
  | createdRepo (url : String)
  | tempDirErr (repo err : String)
  | cloning (dir : String)
  | cloneErr (repo err output : String)
  | remoteAddErr (repo err output : String)
  | pushBranchesErr (repo err output : String)
  | pushTagsErr (repo err output : String)
  | migrated (repo : String)
  | removeErr (repo err : String)
  | removedClone (repo : String)
  | moveErr (repo dest err : String)
  | savedClone (repo dest : String)
deriving DecidableEq

/-- The exact strings handed to `appendLog` in `new.go` (timestamp omitted,
see the file comment). -/
def render : LogMsg → String
  | .migrating r => "Migrating repository: " ++ r
  | .createErr r e => "Error creating Azure repo for " ++ r ++ ": " ++ e
  | .createdRepo u => "Created Azure repo: " ++ u
  | .tempDirErr r e => "Error creating temporary directory for " ++ r ++ ": " ++ e
  | .cloning d => "Cloning repository into " ++ d
  | .cloneErr r e o => "Error cloning " ++ r ++ ": " ++ e ++ ", output: " ++ o
  | .remoteAddErr r e o => "Error adding Azure remote for " ++ r ++ ": " ++ e ++ ", output: " ++ o
  | .pushBranchesErr r e o => "Error pushing branches for " ++ r ++ ": " ++ e ++ ", output: " ++ o
  | .pushTagsErr r e o => "Error pushing tags for " ++ r ++ ": " ++ e ++ ", output: " ++ o
  | .migrated r => "Successfully migrated " ++ r ++ " to Azure."
  | .removeErr r e => "Error removing local clone for " ++ r ++ ": " ++ e
  | .removedClone r => "Removed local clone for " ++ r ++ "."
  | .moveErr r d e => "Error moving clone for " ++ r ++ " to " ++ d ++ ": " ++ e
  | .savedClone r d => "Local clone for " ++ r ++ " saved to " ++ d ++ "."

/-- Oracle for the external effects of one iteration of `new.go`'s loop:
the Azure HTTP exchange, `ioutil.TempDir` (`none` = error, `some dir` = the
fresh directory path the OS handed back), the four git subprocesses
(success flag plus the error text and combined output used in the log on
failure), and the filesystem calls of the cleanup phase.  The `os.RemoveAll`
calls on the five mutually exclusive paths of one iteration share the single
`removeOk`/`removeErrMsg` pair, since at most one of them runs. -/
structure RepoEnv where
  azureNet : Except String AzureResponse
  tempDir : Option String
  tempDirErrMsg : String
  cloneOk : Bool
  cloneErrMsg : String
  cloneOutput : String
  remoteAddOk : Bool
  remoteAddErrMsg : String
  remoteAddOutput : String
  pushBranchesOk : Bool
  pushBranchesErrMsg : String
  pushBranchesOutput : String
  pushTagsOk : Bool
  pushTagsErrMsg : String
  pushTagsOutput : String
  removeOk : Bool
  removeErrMsg : String
  mkdirOk : Bool
  renameOk : Bool
  moveErrMsg : String
deriving DecidableEq

/-- Observable result of one loop iteration of `new.go`: the log messages it
appended, the git command lines it invoked (in order), whether the temporary
workspace directory still exists at its original path afterwards, and where
the clone was relocated to, if anywhere. -/
structure StepResult where
  logs : List LogMsg
  gitCalls : List (List String)
  tempDirLeftBehind : Bool
  savedAt : Option String
deriving DecidableEq

/-- Embedding of one iteration of the migration loop in `new.go` (lines
171–249) for repository `repo`, with `dontSave` the state of the
"Don't save local clone" checkbox.  Control flow follows the source:
provision the Azure repository (`continue` on error), make a temp dir
(`continue` on error), `git clone --bare`, `git remote add azure`,
`git push azure --all`, `git push azure --tags` (each failure logs, removes
the temp dir, and `continue`s), then either remove the clone or move it to
`clones/<repo-with-slashes-replaced>` (the cleaned form of
`filepath.Join(".", "clones", ...)`).  On a failed `git clone` the temp dir
still exists (it was created by `TempDir` beforehand) until the explicit
`os.RemoveAll`. -/
def migrateOne (githubToken azureOrg azureProject azureToken : String)
    (dontSave : Bool) (repo : String) (env : RepoEnv) : StepResult :=
  match createAzureRepo repo azureOrg azureProject azureToken env.azureNet with
  | .error e => ⟨[.migrating repo, .createErr repo e], [], false, none⟩
  | .ok azureRepoURL =>
    let githubRepoURL := "https://" ++ githubToken ++ "@github.com/" ++ repo ++ ".git"
    match env.tempDir with
    | none =>
      ⟨[.migrating repo, .createdRepo azureRepoURL, .tempDirErr repo env.tempDirErrMsg],
       [], false, none⟩
    | some tempDir =>
      let cloneCmd := ["git", "clone", "--bare", githubRepoURL, tempDir]
      if env.cloneOk = false then
        ⟨[.migrating repo, .createdRepo azureRepoURL, .cloning tempDir,
          .cloneErr repo env.cloneErrMsg env.cloneOutput],
         [cloneCmd], !env.removeOk, none⟩
      else
        let remoteAddCmd := ["git", "-C", tempDir, "remote", "add", "azure", azureRepoURL]
        if env.remoteAddOk = false then
          ⟨[.migrating repo, .createdRepo azureRepoURL, .cloning tempDir,
            .remoteAddErr repo env.remoteAddErrMsg env.remoteAddOutput],
           [cloneCmd, remoteAddCmd], !env.removeOk, none⟩
        else
          let pushAllCmd := ["git", "-C", tempDir, "push", "azure", "--all"]
          if env.pushBranchesOk = false then
            ⟨[.migrating repo, .createdRepo azureRepoURL, .cloning tempDir,
              .pushBranchesErr repo env.pushBranchesErrMsg env.pushBranchesOutput],
             [cloneCmd, remoteAddCmd, pushAllCmd], !env.removeOk, none⟩
          else
            let pushTagsCmd := ["git", "-C", tempDir, "push", "azure", "--tags"]
            if env.pushTagsOk = false then
              ⟨[.migrating repo, .createdRepo azureRepoURL, .cloning tempDir,
                .pushTagsErr repo env.pushTagsErrMsg env.pushTagsOutput],
               [cloneCmd, remoteAddCmd, pushAllCmd, pushTagsCmd], !env.removeOk, none⟩
            else
              let calls := [cloneCmd, remoteAddCmd, pushAllCmd, pushTagsCmd]
              if dontSave then
                if env.removeOk then
                  ⟨[.migrating repo, .createdRepo azureRepoURL, .cloning tempDir,
                    .migrated repo, .removedClone repo], calls, false, none⟩
                else
                  ⟨[.migrating repo, .createdRepo azureRepoURL, .cloning tempDir,
                    .migrated repo, .removeErr repo env.removeErrMsg], calls, true, none⟩
              else
                let destDir := "clones/" ++ slashToUnderscore repo
                if env.mkdirOk && env.renameOk then
                  ⟨[.migrating repo, .createdRepo azureRepoURL, .cloning tempDir,
                    .migrated repo, .savedClone repo destDir], calls, false, some destDir⟩
                else
                  ⟨[.migrating repo, .createdRepo azureRepoURL, .cloning tempDir,
                    .migrated repo, .moveErr repo destDir env.moveErrMsg], calls, true, none⟩

/-- Embedding of the whole sequential loop of `new.go`'s migration goroutine
over the repository list returned by `getGitHubRepos`, concatenating each
iteration's log.  `envs i` is the external world seen by iteration `i`. -/
def runLoop (githubToken azureOrg azureProject azureToken : String)
    (dontSave : Bool) (envs : Nat → RepoEnv) : List String → Nat → List LogMsg
  | [], _ => []
  | r :: rs, i =>
    (migrateOne githubToken azureOrg azureProject azureToken dontSave r (envs i)).logs ++
      runLoop githubToken azureOrg azureProject azureToken dontSave envs rs (i + 1)

/-- Classify a `new.go` log message as a terminal per-repository outcome
record: each error logged just before a `continue` is the terminal `Failed`
record of its iteration, `"Successfully migrated ..."` is the terminal
`Succeeded` record; the banner, progress and cleanup messages (including the
remove/move errors logged after success) are not terminal records. -/
def terminalOf : LogMsg → Option (String × Bool)
  | .createErr r _ => some (r, false)
  | .tempDirErr r _ => some (r, false)
  | .cloneErr r _ _ => some (r, false)
  | .remoteAddErr r _ _ => some (r, false)
  | .pushBranchesErr r _ _ => some (r, false)
  | .pushTagsErr r _ _ => some (r, false)
  | .migrated r => some (r, true)
  | _ => none

/-- Number of attempts visible in a log: `new.go` logs
`"Migrating repository: %s"` exactly once at the start of each attempt at a
repository, so attempts are counted by that banner. -/
def attemptCount (logs : List LogMsg) : Nat :=
  (logs.filter (fun m => match m with | .migrating _ => true | _ => false)).length

/-! ## `new.go`: `getGitHubRepos` -/

/-- The HTTP request `getGitHubRepos` builds: method, URL and headers. -/
structure GitHubRequest where
  method : String
  url : String
  headers : List (String × String)
deriving DecidableEq

/-- The observable part of the GitHub response: status code and the
`full_name` fields parsed from the JSON body (empty when the body fails to
unmarshal, matching the ignored `json.Unmarshal` error). -/
structure GitHubResponse where
  status : Nat
  fullNames : List String
deriving DecidableEq

/-- Embedding of `new.go`'s `getGitHubRepos`.  `respond` is the network
oracle (`none` models a `client.Do` error).  The source builds a GET to
`https://api.github.com/user/repos` with the PAT in the `Authorization`
header, returns `nil` on network error or non-200 status, and otherwise the
list of `full_name` values.  The `user` argument appears nowhere in the
function body. -/
def getGitHubRepos (user token : String)
    (respond : GitHubRequest → Option GitHubResponse) : Option (List String) :=
  let req : GitHubRequest :=
    ⟨"GET", "https://api.github.com/user/repos",
     [("Authorization", "token " ++ token), ("Accept", "application/vnd.github.v3+json")]⟩
  match respond req with
  | none => none
  | some resp => if resp.status = 200 then some resp.fullNames else none

/-! ## `main.go`: `migrateRepo` and the Migrate button handler -/

/-- Log messages of `main.go`'s `migrateRepo` (appended to the shared
`logBox` label), one constructor per `logMsg` call site.  Note that the
failure messages interpolate only the error, not the repository name. -/
inductive MainLog where
  | migrating (repo : String)
  | cloneFail (err : String)
  | remoteFail (err : String)
  | pushFail (err : String)
  | deleteFail (err : String)
  | migratedDeleted (repo : String)
  | migrated (repo : String)
deriving DecidableEq

/-- Oracle for the external effects of one `migrateRepo` call in `main.go`:
the three git subprocesses and the optional `os.RemoveAll`. -/
structure MainEnv where
  cloneOk : Bool
  cloneErrMsg : String
  remoteAddOk : Bool
  remoteAddErrMsg : String
  pushOk : Bool
  pushErrMsg : String
  removeOk : Bool
  removeErrMsg : String
deriving DecidableEq

/-- Observable result of one `migrateRepo` call in `main.go`: its log
messages, the git command lines it ran, and whether the clone directory
`repoName ++ ".git"` still exists in the working directory afterwards. -/
structure MainResult where
  logs : List MainLog
  gitCalls : List (List String)
  dirExistsAfter : Bool
deriving DecidableEq

/-- The local clone directory `main.go`'s `migrateRepo` uses (line 32):
`fmt.Sprintf("%s.git", repoName)`, created in the process working directory
by `git clone --mirror`. -/
def mainCloneDir (repoName : String) : String := repoName ++ ".git"

/-- Embedding of `main.go`'s `migrateRepo` (lines 15–57).  Control flow
follows the source: `git clone --mirror` (return on error; a failed clone is
modelled as leaving no directory behind, since git removes the target of a
failed clone), `git remote add azure-devops` (return on error — note no
directory cleanup), `git push --mirror azure-devops` (return on error — no
cleanup), then `os.RemoveAll` only when `deleteAfter` is checked. -/
def migrateRepoM (gitHubOrg adoOrg adoProject repoName gitPat adoPat : String)
    (deleteAfter : Bool) (env : MainEnv) : MainResult :=
  let dirName := mainCloneDir repoName
  let cloneCmd := ["git", "clone", "--mirror",
    "https://" ++ gitPat ++ "@github.com/" ++ gitHubOrg ++ "/" ++ repoName ++ ".git"]
  if env.cloneOk = false then
    ⟨[.migrating repoName, .cloneFail env.cloneErrMsg], [cloneCmd], false⟩
  else
    let remoteCmd := ["git", "-C", dirName, "remote", "add", "azure-devops",
      "https://" ++ adoPat ++ "@dev.azure.com/" ++ adoOrg ++ "/" ++ adoProject ++ "/_git/" ++ repoName]
    if env.remoteAddOk = false then
      ⟨[.migrating repoName, .remoteFail env.remoteAddErrMsg], [cloneCmd, remoteCmd], true⟩
    else
      let pushCmd := ["git", "-C", dirName, "push", "--mirror", "azure-devops"]
      if env.pushOk = false then
        ⟨[.migrating repoName, .pushFail env.pushErrMsg], [cloneCmd, remoteCmd, pushCmd], true⟩
      else if deleteAfter then
        if env.removeOk then
          ⟨[.migrating repoName, .migratedDeleted repoName],
           [cloneCmd, remoteCmd, pushCmd], false⟩
        else
          ⟨[.migrating repoName, .deleteFail env.removeErrMsg],
           [cloneCmd, remoteCmd, pushCmd], true⟩
      else
        ⟨[.migrating repoName, .migrated repoName], [cloneCmd, remoteCmd, pushCmd], true⟩

/-- The arguments of one `go migrateRepo(...)` spawned by the Migrate button
handler in `main.go` (lines 74–79). -/
structure SpawnArgs where
  gitHubOrg : String
  adoOrg : String
  adoProject : String
  repoName : String
  gitPat : String
  adoPat : String
  deleteAfter : Bool
deriving DecidableEq

/-- Embedding of `main.go`'s Migrate button handler (lines 74–79): split the
repository text box on commas and spawn one `migrateRepo` goroutine per
entry, trimming each field read from the form.  The returned list is in
spawn (enumeration) order. -/
def migrateButtonSpawns (gitHubOrgText adoOrgText adoProjectText repoListText
    gitPatText adoPatText : String) (deleteAfter : Bool) : List SpawnArgs :=
  (splitComma repoListText).map (fun repo =>
    ⟨trimSpace gitHubOrgText, trimSpace adoOrgText, trimSpace adoProjectText,
     trimSpace repo, trimSpace gitPatText, trimSpace adoPatText, deleteAfter⟩)

/-- One admissible execution of the goroutines fired by `main.go`'s Migrate
button: the handler spawns `migrateButtonSpawns ...`; the goroutines then
run concurrently with no synchronization, so their log appends reach the
shared label in a nondeterministic order.  `order` picks one admissible
interleaving in which each goroutine runs to completion before the next
starts (completion order = `order`); each append is modelled as atomic,
which is the interleaving most favorable to ordering claims — the actual
unsynchronized `SetText(Text + msg)` can additionally lose messages. -/
def migrateButtonRun (gitHubOrgText adoOrgText adoProjectText repoListText
    gitPatText adoPatText : String) (deleteAfter : Bool)
    (envs : Nat → MainEnv) (order : List Nat) : List MainLog :=
  let spawns := migrateButtonSpawns gitHubOrgText adoOrgText adoProjectText
    repoListText gitPatText adoPatText deleteAfter
  (order.map (fun i =>
    match spawns[i]? with
    | some s =>
      (migrateRepoM s.gitHubOrg s.adoOrg s.adoProject s.repoName s.gitPat s.adoPat
        s.deleteAfter (envs i)).logs
    | none => [])).flatten

/-- Terminal per-task outcome record in `main.go`'s log: each failure
message (logged just before `return`) is the terminal `Failed` record of its
goroutine — carrying only the error text, since the source does not
interpolate the repository name there — and the two success messages are
terminal `Succeeded` records. -/
inductive MainRecord where
  | succeeded (repo : String)
  | failed (msg : String)
deriving DecidableEq

/-- Classify a `main.go` log message as a terminal outcome record. -/
def mainTerminalOf : MainLog → Option MainRecord
  | .migrating _ => none
  | .cloneFail e => some (.failed e)
  | .remoteFail e => some (.failed e)
  | .pushFail e => some (.failed e)
  | .deleteFail e => some (.failed e)
  | .migratedDeleted r => some (.succeeded r)
  | .migrated r => some (.succeeded r)

/-! ## The work list as the specification describes it -/

/-- Order-preserving de-duplication keeping first occurrences. -/
def dedupFirst : List String → List String
  | [] => []
  | x :: xs => x :: (dedupFirst xs).filter (fun y => y ≠ x)

/-- Modelled from the spec: the work list the claim describes for an
explicitly supplied repository list — "each entry whitespace-trimmed, empty
entries dropped, duplicates removed, and the original order of first
occurrences preserved".  Used only for comparison with the list the code
actually builds. -/
def workListClaimed (repoListText : String) : List String :=
  dedupFirst (((splitComma repoListText).map trimSpace).filter (fun r => r ≠ ""))

/-! # Theorems -/

/-- **C3 (counterexample).** The claim says an "already exists" report from
the destination host is treated as success.  In `createAzureRepo` only
status 201 succeeds: a first `ensure` against an absent repository (201
Created) succeeds, but the second call for the same identifier — where the
host reports the repository already exists with 409 Conflict — returns
`Azure API error: 409 Conflict` instead of resolving the existing push URL. -/
theorem c3_counterexample :
    provisionOk (createAzureRepo "repo" "https://dev.azure.com/org" "project" "tok"
        (.ok ⟨201, "201 Created", "https://dev.azure.com/org/project/_git/repo"⟩)) = true ∧
    provisionOk (createAzureRepo "repo" "https://dev.azure.com/org" "project" "tok"
        (.ok ⟨409, "409 Conflict", "https://dev.azure.com/org/project/_git/repo"⟩)) = false := by
  decide

/-- **C3 (amended).** Destination provisioning is not idempotent:
`createAzureRepo` succeeds exactly when the host answers 201 Created, and
any other response — including the conflict answer reporting that the
repository already exists — yields the error
`"Azure API error: " ++ resp.Status`, so a re-run errors on an existing
repository rather than resolving its push URL. -/
theorem c3_provision_succeeds_iff_201 (repoName org project token : String)
    (resp : AzureResponse) :
    provisionOk (createAzureRepo repoName org project token (.ok resp)) = (resp.status == 201) ∧
    (resp.status ≠ 201 →
      createAzureRepo repoName org project token (.ok resp) =
        .error ("Azure API error: " ++ resp.statusText)) := by
  constructor
  · by_cases h : resp.status = 201 <;> simp [createAzureRepo, provisionOk, h]
  · intro h
    simp [createAzureRepo, h]

/-- Witness for `c3_provision_succeeds_iff_201` at a concrete conflicting
response. -/
theorem c3_provision_succeeds_iff_201_witness :
    createAzureRepo "repo" "https://dev.azure.com/org" "project" "tok"
        (.ok ⟨409, "409 Conflict", ""⟩) =
      .error ("Azure API error: " ++ "409 Conflict") :=
  (c3_provision_succeeds_iff_201 "repo" "https://dev.azure.com/org" "project" "tok"
      ⟨409, "409 Conflict", ""⟩).2 (by decide)

/-- **C10.** `getGitHubRepos` never reads its `user` parameter: with the
same token and the same network oracle, any two user arguments produce
identical results. -/
theorem c10_user_argument_ignored (u1 u2 token : String)
    (respond : GitHubRequest → Option GitHubResponse) :
    getGitHubRepos u1 token respond = getGitHubRepos u2 token respond := rfl

/-- **C8 (counterexample).** The claim says the work list drops empty
entries and removes duplicates.  For the input text `"a,,a"` the Migrate
button handler of `main.go` spawns three tasks with repository names
`["a", "", "a"]` — the empty field is kept and the duplicate is not removed
— while the claimed pipeline would yield `["a"]`. -/
theorem c8_counterexample :
    ((migrateButtonSpawns "org" "ado" "proj" "a,,a" "gp" "ap" false).map
        SpawnArgs.repoName = ["a", "", "a"]) ∧
    workListClaimed "a,,a" = ["a"] ∧
    (["a", "", "a"] : List String) ≠ ["a"] := by
  decide

/-- **C8 (amended).** The work list actually used for migration is the
input text split on commas with each entry whitespace-trimmed, in original
order — with empty entries kept and duplicates retained. -/
theorem c8_work_list_is_split_then_trim (gitHubOrgText adoOrgText adoProjectText
    repoListText gitPatText adoPatText : String) (deleteAfter : Bool) :
    (migrateButtonSpawns gitHubOrgText adoOrgText adoProjectText repoListText
        gitPatText adoPatText deleteAfter).map SpawnArgs.repoName =
      (splitComma repoListText).map trimSpace := by
  simp [migrateButtonSpawns]

/-- **C9 (counterexample).** The claim says any two distinct concurrent
tasks use distinct workspace directories.  With input text `"a,a"`,
`main.go` spawns two distinct concurrent goroutines (indices 0 and 1) whose
clone directories are both `"a.git"`. -/
theorem c9_counterexample :
    (((migrateButtonSpawns "org" "ado" "proj" "a,a" "gp" "ap" true).map
        (fun s => mainCloneDir s.repoName))[0]? =
      ((migrateButtonSpawns "org" "ado" "proj" "a,a" "gp" "ap" true).map
        (fun s => mainCloneDir s.repoName))[1]?) ∧
    ((migrateButtonSpawns "org" "ado" "proj" "a,a" "gp" "ap" true).map
        (fun s => mainCloneDir s.repoName))[0]? = some "a.git" := by
  decide

/-- **C9 (amended).** In `main.go` the workspace directory is
`repoName ++ ".git"`, so tasks for distinct repository names use distinct
directories; only tasks for the same name (duplicates are not removed from
the work list, as the C8 counterexample shows) collide.  (`new.go` instead asks
`ioutil.TempDir` for a fresh uniquely-named directory per task.) -/
theorem c9_distinct_names_distinct_dirs (r1 r2 : String) (h : r1 ≠ r2) :
    mainCloneDir r1 ≠ mainCloneDir r2 := by
  intro he
  apply h
  apply String.ext
  have h2 : r1.data ++ ".git".data = r2.data ++ ".git".data := by
    have h3 := congrArg String.data he
    simpa [mainCloneDir] using h3
  exact List.append_cancel_right h2

/-- Witness for `c9_distinct_names_distinct_dirs` on two concrete names. -/
theorem c9_distinct_names_distinct_dirs_witness :
    mainCloneDir "alpha" ≠ mainCloneDir "beta" :=
  c9_distinct_names_distinct_dirs "alpha" "beta" (by decide)

/-- **C2 (counterexample).** The claim says the workspace never survives a
transfer unless retention was requested.  In `main.go`'s `migrateRepo` with
`deleteAfter = true` (retention explicitly *not* requested), a failure at
the remote-add step returns without any cleanup: the mirror-cloned
directory `"r.git"` still exists afterwards. -/
theorem c2_counterexample :
    (migrateRepoM "org" "ado" "proj" "r" "gp" "ap" true
        ⟨true, "", false, "exit status 128", true, "", true, ""⟩).dirExistsAfter = true := by
  decide

/-- A fully successful external world for one `new.go` iteration: the Azure
API answers 201 Created with a push URL, `TempDir` hands back a directory,
and all git and filesystem operations succeed. -/
def envAllOk : RepoEnv :=
  ⟨.ok ⟨201, "201 Created", "https://dev.azure.com/org/project/_git/repo"⟩,
   some "/tmp/org_repo123", "", true, "", "", true, "", "", true, "", "",
   true, "", "", true, "", true, true, ""⟩

/-- An external world whose `git clone` fails (e.g. the source repository
does not resolve — a non-transient error). -/
def envCloneFail : RepoEnv :=
  ⟨.ok ⟨201, "201 Created", "https://dev.azure.com/org/project/_git/repo"⟩,
   some "/tmp/org_repo123", "", false, "exit status 128", "fatal: repository not found",
   true, "", "", true, "", "", true, "", "", true, "", true, true, ""⟩

/-- Each iteration of `new.go`'s loop contributes exactly one terminal
outcome record, and it names the iteration's repository. -/
theorem migrateOne_one_terminal (githubToken azureOrg azureProject azureToken : String)
    (dontSave : Bool) (repo : String) (env : RepoEnv) :
    ∃ ok, ((migrateOne githubToken azureOrg azureProject azureToken dontSave repo
      env).logs.filterMap terminalOf) = [(repo, ok)] := by
  obtain ⟨net, td, tde, co, ce, cout, ro, re, rout, pbo, pbe, pbout, pto, pte, ptout,
    rmo, rme, mko, rno, mve⟩ := env
  cases hc : createAzureRepo repo azureOrg azureProject azureToken net with
  | error e => exact ⟨false, by simp [migrateOne, hc, terminalOf]⟩
  | ok url =>
    cases td with
    | none => exact ⟨false, by simp [migrateOne, hc, terminalOf]⟩
    | some tdir =>
      cases co <;> cases ro <;> cases pbo <;> cases pto <;> cases dontSave <;>
        cases rmo <;> cases mko <;> cases rno <;>
        exact ⟨_, by simp [migrateOne, hc, terminalOf]
                     try rfl⟩

/-- The sequential loop of `new.go` produces, for every repository list and
every external world, exactly one terminal record per list entry, in the
list's order. -/
theorem runLoop_one_terminal_per_repo (githubToken azureOrg azureProject azureToken : String)
    (dontSave : Bool) (envs : Nat → RepoEnv) :
    ∀ (repos : List String) (i : Nat),
      (((runLoop githubToken azureOrg azureProject azureToken dontSave envs repos i).filterMap
        terminalOf).map Prod.fst) = repos
  | [], _ => rfl
  | r :: rs, i => by
    obtain ⟨ok, hok⟩ := migrateOne_one_terminal githubToken azureOrg azureProject azureToken
      dontSave r (envs i)
    simp [runLoop, List.filterMap_append, hok,
      runLoop_one_terminal_per_repo githubToken azureOrg azureProject azureToken dontSave envs
        rs (i + 1)]

/-- **C1 (amended).** The sequential batch runner of `new.go` produces, for
every (in particular every non-empty) repository list and every outcome of
the individual transfers, exactly one terminal outcome record per input
identifier, naming the identifiers in their original enumeration order.
(The goroutine-per-repository runner of `main.go` instead emits its records
in goroutine completion order, as the C1 counterexample shows.) -/
theorem c1_sequential_runner_in_order (githubToken azureOrg azureProject azureToken : String)
    (dontSave : Bool) (envs : Nat → RepoEnv) (repos : List String) :
    (((runLoop githubToken azureOrg azureProject azureToken dontSave envs repos 0).filterMap
      terminalOf).map Prod.fst) = repos :=
  runLoop_one_terminal_per_repo githubToken azureOrg azureProject azureToken dontSave envs repos 0

/-- **C1 (counterexample).** The claim says outcome records appear in the
identifiers' original enumeration order regardless of completion order.  In
`main.go` the handler fires one unsynchronized goroutine per identifier; in
the admissible execution of `["r1", "r2"]` (both transfers succeeding) in
which the second goroutine completes first, the shared log holds the
terminal records in the order `r2, r1` — not the enumeration order. -/
theorem c1_counterexample :
    ((migrateButtonRun "org" "ado" "proj" "r1,r2" "gp" "ap" false
        (fun _ => ⟨true, "", true, "", true, "", true, ""⟩) [1, 0]).filterMap mainTerminalOf =
      [.succeeded "r2", .succeeded "r1"]) ∧
    ([MainRecord.succeeded "r2", .succeeded "r1"] ≠
      [MainRecord.succeeded "r1", .succeeded "r2"]) := by
  decide

/-- **C6.** `new.go` reports a repository as successfully migrated only if
both the branch push and the tag push completed. -/
theorem c6_success_requires_both_pushes (githubToken azureOrg azureProject azureToken : String)
    (dontSave : Bool) (repo : String) (env : RepoEnv)
    (h : LogMsg.migrated repo ∈
      (migrateOne githubToken azureOrg azureProject azureToken dontSave repo env).logs) :
    env.pushBranchesOk = true ∧ env.pushTagsOk = true := by
  obtain ⟨net, td, tde, co, ce, cout, ro, re, rout, pbo, pbe, pbout, pto, pte, ptout,
    rmo, rme, mko, rno, mve⟩ := env
  cases hc : createAzureRepo repo azureOrg azureProject azureToken net with
  | error e => simp [migrateOne, hc] at h
  | ok url =>
    cases td with
    | none => simp [migrateOne, hc] at h
    | some tdir =>
      cases co <;> cases ro <;> cases pbo <;> cases pto <;> cases dontSave <;>
        cases rmo <;> cases mko <;> cases rno <;> simp_all [migrateOne, hc]

/-- Witness for `c6_success_requires_both_pushes` on a concrete successful
run. -/
theorem c6_success_requires_both_pushes_witness :
    (LogMsg.migrated "org/repo" ∈
      (migrateOne "ghtok" "https://dev.azure.com/org" "project" "adotok" true "org/repo"
        envAllOk).logs) ∧
    (envAllOk.pushBranchesOk = true ∧ envAllOk.pushTagsOk = true) :=
  ⟨by decide,
   c6_success_requires_both_pushes "ghtok" "https://dev.azure.com/org" "project" "adotok"
     true "org/repo" envAllOk (by decide)⟩

/-- **C7.** The code retries nothing: a failing task — whatever the class of
its error — is attempted exactly once, which satisfies both bounds of the
claim (at most `maxAttempts` attempts for transient errors, exactly one for
non-transient errors). -/
theorem c7_failed_task_attempted_once (githubToken azureOrg azureProject azureToken : String)
    (dontSave : Bool) (repo : String) (env : RepoEnv) (maxAttempts : Nat)
    (hmax : 1 ≤ maxAttempts)
    (hfail : (repo, false) ∈
      ((migrateOne githubToken azureOrg azureProject azureToken dontSave repo
        env).logs.filterMap terminalOf)) :
    attemptCount (migrateOne githubToken azureOrg azureProject azureToken dontSave repo
        env).logs = 1 ∧
    attemptCount (migrateOne githubToken azureOrg azureProject azureToken dontSave repo
        env).logs ≤ maxAttempts := by
  have h1 : attemptCount (migrateOne githubToken azureOrg azureProject azureToken dontSave
      repo env).logs = 1 := by
    obtain ⟨net, td, tde, co, ce, cout, ro, re, rout, pbo, pbe, pbout, pto, pte, ptout,
      rmo, rme, mko, rno, mve⟩ := env
    cases hc : createAzureRepo repo azureOrg azureProject azureToken net with
    | error e => simp [migrateOne, hc, attemptCount]
    | ok url =>
      cases td with
      | none => simp [migrateOne, hc, attemptCount]
      | some tdir =>
        cases co <;> cases ro <;> cases pbo <;> cases pto <;> cases dontSave <;>
          cases rmo <;> cases mko <;> cases rno <;> simp [migrateOne, hc, attemptCount]
  exact ⟨h1, h1 ▸ hmax⟩

/-- Witness for `c7_failed_task_attempted_once`: a clone failure with
`maxAttempts = 3`. -/
theorem c7_failed_task_attempted_once_witness :
    attemptCount (migrateOne "ghtok" "https://dev.azure.com/org" "project" "adotok" true
        "org/repo" envCloneFail).logs = 1 ∧
    attemptCount (migrateOne "ghtok" "https://dev.azure.com/org" "project" "adotok" true
        "org/repo" envCloneFail).logs ≤ 3 :=
  c7_failed_task_attempted_once "ghtok" "https://dev.azure.com/org" "project" "adotok" true
    "org/repo" envCloneFail 3 (by decide) (by decide)

/-- **C2 (amended).** In `new.go` the temporary workspace never survives at
its original path — it is removed on every failure path and removed or
relocated after success — provided the filesystem remove/mkdir/rename
operations themselves succeed.  (In `main.go` the clone directory is leaked
whenever the remote-add or push step fails, as the C2 counterexample shows.) -/
theorem c2_newgo_workspace_not_left_behind (githubToken azureOrg azureProject azureToken : String)
    (dontSave : Bool) (repo : String) (env : RepoEnv)
    (hrm : env.removeOk = true) (hmk : env.mkdirOk = true) (hrn : env.renameOk = true) :
    (migrateOne githubToken azureOrg azureProject azureToken dontSave repo
      env).tempDirLeftBehind = false := by
  obtain ⟨net, td, tde, co, ce, cout, ro, re, rout, pbo, pbe, pbout, pto, pte, ptout,
    rmo, rme, mko, rno, mve⟩ := env
  simp only at hrm hmk hrn
  subst hrm
  subst hmk
  subst hrn
  cases hc : createAzureRepo repo azureOrg azureProject azureToken net with
  | error e => simp [migrateOne, hc]
  | ok url =>
    cases td with
    | none => simp [migrateOne, hc]
    | some tdir =>
      cases co <;> cases ro <;> cases pbo <;> cases pto <;> cases dontSave <;>
        simp [migrateOne, hc]

/-- Witness for `c2_newgo_workspace_not_left_behind` on a concrete
successful run with the "Don't save local clone" box ticked. -/
theorem c2_newgo_workspace_not_left_behind_witness :
    (migrateOne "ghtok" "https://dev.azure.com/org" "project" "adotok" true "org/repo"
      envAllOk).tempDirLeftBehind = false :=
  c2_newgo_workspace_not_left_behind "ghtok" "https://dev.azure.com/org" "project" "adotok"
    true "org/repo" envAllOk (by decide) (by decide) (by decide)

/-- Modelled from the spec: a "full mirror-style clone of the source (all
refs, all tags, no working tree)" is a `git clone` invocation carrying the
`--mirror` flag — per git's documented behavior `--mirror` maps *all* refs
of the source verbatim, whereas `--bare` fetches only branches and tags. -/
def isFullMirrorCloneCmd (cmd : List String) : Bool :=
  (cmd.take 2 == ["git", "clone"]) && cmd.contains "--mirror"

/-- **C5 (counterexample).** The claim says the transfer performs a full
mirror-style clone copying all refs.  On a fully successful `new.go` run
the first git command issued is `git clone --bare <url> <dir>`, which is not
a mirror-style clone (no `--mirror`, so refs outside branches and tags are
not copied). -/
theorem c5_counterexample :
    ((migrateOne "ghtok" "https://dev.azure.com/org" "project" "adotok" true "org/repo"
        envAllOk).gitCalls.head? =
      some ["git", "clone", "--bare", "https://ghtok@github.com/org/repo.git",
        "/tmp/org_repo123"]) ∧
    isFullMirrorCloneCmd ["git", "clone", "--bare", "https://ghtok@github.com/org/repo.git",
        "/tmp/org_repo123"] = false := by
  decide

/-- **C5 (amended).** On a transfer whose provisioning, clone and pushes all
succeed, `new.go` issues exactly, and in this order: a *bare* clone of the
source (branches and tags, no working tree — not all refs as a mirror clone
would copy), the registration of the destination remote, a push of all
branches, and a push of all tags.  (`main.go` instead issues a mirror clone
followed by a single `git push --mirror`.) -/
theorem c5_command_sequence (githubToken azureOrg azureProject azureToken : String)
    (dontSave : Bool) (repo url td : String) (env : RepoEnv)
    (hc : createAzureRepo repo azureOrg azureProject azureToken env.azureNet = .ok url)
    (htd : env.tempDir = some td)
    (h1 : env.cloneOk = true) (h2 : env.remoteAddOk = true)
    (h3 : env.pushBranchesOk = true) (h4 : env.pushTagsOk = true) :
    (migrateOne githubToken azureOrg azureProject azureToken dontSave repo env).gitCalls =
      [["git", "clone", "--bare",
        "https://" ++ githubToken ++ "@github.com/" ++ repo ++ ".git", td],
       ["git", "-C", td, "remote", "add", "azure", url],
       ["git", "-C", td, "push", "azure", "--all"],
       ["git", "-C", td, "push", "azure", "--tags"]] := by
  cases dontSave <;> cases hro : env.removeOk <;> cases hmk : env.mkdirOk <;>
    cases hrn : env.renameOk <;>
    simp [migrateOne, hc, htd, h1, h2, h3, h4, hro, hmk, hrn]

/-- Witness for `c5_command_sequence` on a concrete successful run. -/
theorem c5_command_sequence_witness :
    (migrateOne "ghtok" "https://dev.azure.com/org" "project" "adotok" true "org/repo"
        envAllOk).gitCalls =
      [["git", "clone", "--bare",
        "https://" ++ "ghtok" ++ "@github.com/" ++ "org/repo" ++ ".git", "/tmp/org_repo123"],
       ["git", "-C", "/tmp/org_repo123", "remote", "add", "azure",
        "https://adotok@dev.azure.com/org/project/_git/repo"],
       ["git", "-C", "/tmp/org_repo123", "push", "azure", "--all"],
       ["git", "-C", "/tmp/org_repo123", "push", "azure", "--tags"]] :=
  c5_command_sequence "ghtok" "https://dev.azure.com/org" "project" "adotok" true "org/repo"
    "https://adotok@dev.azure.com/org/project/_git/repo" "/tmp/org_repo123" envAllOk
    (by decide) (by decide) (by decide) (by decide) (by decide) (by decide)

/-- A list is a prefix of itself followed by anything. -/
theorem isPrefixOf_append_self (t y : List Char) : t.isPrefixOf (t ++ y) = true := by
  induction t with
  | nil => simp
  | cons c cs ih => simp [List.isPrefixOf_cons₂, ih]

/-- `containsChars` finds an occurrence at the front. -/
theorem containsChars_append_self (t y : List Char) : containsChars t (t ++ y) = true := by
  cases t with
  | nil => cases y <;> simp [containsChars, List.isPrefixOf]
  | cons c cs => simp [containsChars, isPrefixOf_append_self]

/-- `containsChars` is preserved by prepending characters. -/
theorem containsChars_append_of (x t s : List Char) (h : containsChars t s = true) :
    containsChars t (x ++ s) = true := by
  induction x with
  | nil => simpa using h
  | cons c cs ih => simp [containsChars, ih]

/-- `containsChars` finds an occurrence in the middle. -/
theorem containsChars_middle (a b t : List Char) :
    containsChars t (a ++ (t ++ b)) = true :=
  containsChars_append_of a t (t ++ b) (containsChars_append_self t b)

/-- On a 201 response whose `remoteUrl` is the canonical
`https://dev.azure.com/...` form, `createAzureRepo` splices the Azure PAT
into the returned push URL right after `https://`. -/
theorem createAzureRepo_splices_token (repoName org project token st : String) :
    createAzureRepo repoName org project token
        (.ok ⟨201, st, "https://dev.azure.com/org/project/_git/repo"⟩) =
      .ok ("https://" ++ ((token ++ "@dev.azure.com") ++ "/org/project/_git/repo")) := by
  rfl

/-- Whenever provisioning succeeds, the log of the iteration starts with the
banner followed by the `Created Azure repo` message carrying the returned
push URL verbatim. -/
theorem migrateOne_logs_start (githubToken azureOrg azureProject azureToken : String)
    (dontSave : Bool) (repo url : String) (env : RepoEnv)
    (hc : createAzureRepo repo azureOrg azureProject azureToken env.azureNet = .ok url) :
    ∃ rest, (migrateOne githubToken azureOrg azureProject azureToken dontSave repo env).logs =
      .migrating repo :: .createdRepo url :: rest := by
  obtain ⟨net, td, tde, co, ce, cout, ro, re, rout, pbo, pbe, pbout, pto, pte, ptout,
    rmo, rme, mko, rno, mve⟩ := env
  cases td <;> cases co <;> cases ro <;> cases pbo <;> cases pto <;> cases dontSave <;>
    cases rmo <;> cases mko <;> cases rno <;>
    exact ⟨_, by simp [migrateOne, hc] <;> rfl⟩

/-- **C4 (amended).** No redaction is performed: whenever destination
provisioning succeeds (here against the canonical
`https://dev.azure.com/...` push URL), the Azure access token is spliced
into the push URL and the `Created Azure repo:` message is emitted with the
token in cleartext — some logged message contains the token verbatim. -/
theorem c4_azure_token_logged_in_cleartext (githubToken azureOrg azureProject azureToken
    st : String) (dontSave : Bool) (repo : String) (env : RepoEnv)
    (hnet : env.azureNet = .ok ⟨201, st, "https://dev.azure.com/org/project/_git/repo"⟩) :
    ((migrateOne githubToken azureOrg azureProject azureToken dontSave repo env).logs.any
      (fun m => containsStr (render m) azureToken)) = true := by
  have hc : createAzureRepo repo azureOrg azureProject azureToken env.azureNet =
      .ok ("https://" ++ ((azureToken ++ "@dev.azure.com") ++ "/org/project/_git/repo")) := by
    rw [hnet]
    exact createAzureRepo_splices_token repo azureOrg azureProject azureToken st
  obtain ⟨rest, hlogs⟩ := migrateOne_logs_start githubToken azureOrg azureProject azureToken
    dontSave repo _ env hc
  have hmsg : containsStr (render (LogMsg.createdRepo
      ("https://" ++ ((azureToken ++ "@dev.azure.com") ++ "/org/project/_git/repo"))))
      azureToken = true := by
    have hkey := containsChars_middle ("Created Azure repo: ".data ++ "https://".data)
      ("@dev.azure.com".data ++ "/org/project/_git/repo".data) azureToken.data
    simpa [containsStr, render, String.data_append, List.append_assoc] using hkey
  rw [hlogs]
  simp [hmsg]

/-- Witness for `c4_azure_token_logged_in_cleartext` with the concrete token
`"SECRETTOKEN"` on a fully successful run. -/
theorem c4_azure_token_logged_in_cleartext_witness :
    ((migrateOne "ghtok" "https://dev.azure.com/org" "project" "SECRETTOKEN" true "org/repo"
        envAllOk).logs.any (fun m => containsStr (render m) "SECRETTOKEN")) = true :=
  c4_azure_token_logged_in_cleartext "ghtok" "https://dev.azure.com/org" "project"
    "SECRETTOKEN" "201 Created" true "org/repo" envAllOk rfl

/-- **C4 (counterexample).** The claim says credentials never appear in
cleartext in any logged message.  On a concrete successful run with Azure
token `"hunter2"`, a logged message (`Created Azure repo:` with the spliced
push URL) contains `"hunter2"` verbatim. -/
theorem c4_counterexample :
    ((migrateOne "ghtok" "https://dev.azure.com/org" "project" "hunter2" false "org/repo"
        envAllOk).logs.any (fun m => containsStr (render m) "hunter2")) = true := by
  decide

end Gitui
